/-
Formal model of the PODFA Monitor signal-processing and calibration core.

The Python source (core/data_processor.py and core/calibration.py) is shallowly
embedded: floats become rationals (ℚ), Python lists become Lean lists, the
mutable engine objects become explicit state records with pure transition
functions, and fallible operations return Option.  External library calls
(numpy statistics, scipy regression, json persistence, Qt signals) are modelled
as follows: numpy mean/std/median/percentile are reimplemented over lists,
scipy regression is an abstract parameter of the calibration calculation,
json persistence becomes a structured record, and emitted Qt signals become an
explicit output list.

Comparisons of the form "abs(x - mean) / std > t" with "std = sqrt(variance)"
are translated square-free: for std > 0 the inequality is equivalent to
"t < 0 or (x - mean)^2 > t^2 * variance" over the rationals (the lemma
abs_div_sqrt_gt_iff below proves this equivalence over the reals), which keeps
every definition executable.
-/

import Mathlib

/-- Arithmetic mean of a list of rationals (np.mean); 0 on the empty list,
which the code never hits on an empty list except where guarded. -/
def npMean (l : List ℚ) : ℚ := l.sum / l.length

/-- Population variance of a list of rationals; np.std is the square root of
this quantity. -/
def npVar (l : List ℚ) : ℚ := (l.map (fun v => (v - npMean l) ^ 2)).sum / l.length

/-- Last n elements of a list, Python slice l[-n:] for n ≥ 1. -/
def lastN (n : ℕ) (l : List α) : List α := l.drop (l.length - n)

/-- Python slice l[i:] for an arbitrary integer start index i: a nonnegative
start drops i elements from the front; a negative start begins at
max(0, len + i). -/
def pySliceFrom (i : ℤ) (l : List α) : List α :=
  if 0 ≤ i then l.drop i.toNat else l.drop ((l.length : ℤ) + i).toNat

/-- CircularBuffer.get_latest from core/data_processor.py: returns the whole
buffer when count ≥ len(buffer), otherwise the Python slice list[-count:]. -/
def getLatest (count : ℤ) (l : List α) : List α :=
  if (l.length : ℤ) ≤ count then l else pySliceFrom (-count) l

/-- Minimum of a list of rationals (np.min on a nonempty array; 0 fallback). -/
def listMin (l : List ℚ) : ℚ :=
  match l with
  | [] => 0
  | x :: xs => xs.foldl min x

/-- Maximum of a list of rationals (np.max on a nonempty array; 0 fallback). -/
def listMax (l : List ℚ) : ℚ :=
  match l with
  | [] => 0
  | x :: xs => xs.foldl max x

/-- Median of a list of rationals (np.median): middle element of the sorted
list, or the average of the two middle elements for even length. -/
def npMedian (l : List ℚ) : ℚ :=
  let s := List.insertionSort (fun a b => a ≤ b) l
  let n := s.length
  if n = 0 then 0
  else if n % 2 = 1 then s.getD (n / 2) 0
  else (s.getD (n / 2 - 1) 0 + s.getD (n / 2) 0) / 2

/-- Percentile with linear interpolation (np.percentile default mode):
position q/100·(n−1) in the sorted list, interpolating between the two
neighbouring order statistics. -/
def npPercentile (q : ℚ) (l : List ℚ) : ℚ :=
  let s := List.insertionSort (fun a b => a ≤ b) l
  let n := s.length
  if n = 0 then 0
  else
    let pos : ℚ := q / 100 * ((n : ℚ) - 1)
    let i : ℕ := (Int.floor pos).toNat
    let lo := s.getD i 0
    let hi := s.getD (i + 1) lo
    lo + (pos - (i : ℚ)) * (hi - lo)

/-- DataPoint from core/data_processor.py: one processed sample. -/
structure DataPoint where
  timestamp : ℚ
  raw_value : ℚ
  filtered_value : Option ℚ := none
  calibrated_value : Option ℚ := none
  quality_score : ℚ := 1
deriving DecidableEq

/-- DataPoint.value property: the effective value, preferring
calibrated_value, then filtered_value, then raw_value. -/
def dpValue (dp : DataPoint) : ℚ :=
  match dp.calibrated_value with
  | some c => c
  | none =>
    match dp.filtered_value with
    | some f => f
    | none => dp.raw_value

/-- Python expression "dp.filtered_value or dp.raw_value" used in
DataProcessor._is_outlier: falls back to raw_value when filtered_value is
None, and also when it is 0.0 (a Python falsy value). -/
def pyFilteredOrRaw (dp : DataPoint) : ℚ :=
  match dp.filtered_value with
  | some f => if f = 0 then dp.raw_value else f
  | none => dp.raw_value

/-- FilterType enumeration from core/data_processor.py. -/
inductive FilterType
  | NONE
  | MOVING_AVERAGE
  | MEDIAN
  | KALMAN
  | BUTTERWORTH
deriving DecidableEq

/-- ProcessingConfig from core/data_processor.py with its field defaults. -/
structure ProcessingConfig where
  max_buffer_size : ℕ := 50000
  filter_type : FilterType := FilterType.MOVING_AVERAGE
  filter_window : ℕ := 5
  outlier_threshold : ℚ := 3
  enable_auto_scaling : Bool := true
  statistics_window : ℕ := 1000
  quality_threshold : ℚ := 1 / 2
  butterworth_cutoff : ℚ := 1
  butterworth_order : ℕ := 2
  sampling_rate : ℚ := 10
deriving DecidableEq

/-- The default ProcessingConfig (all dataclass defaults). -/
def defaultProcessingConfig : ProcessingConfig := {}

/-- CircularBuffer.append: a deque with maxlen keeps the most recent maxSize
elements, evicting from the front. -/
def bufferAppend (maxSize : ℕ) (buf : List α) (x : α) : List α :=
  (buf ++ [x]).drop ((buf ++ [x]).length - maxSize)

/-- Repeated CircularBuffer.append over a list of incoming samples. -/
def appendAll (maxSize : ℕ) (buf : List α) (xs : List α) : List α :=
  xs.foldl (bufferAppend maxSize) buf

/-- DataProcessor._is_outlier: returns false in calibration mode or with
fewer than 10 buffered samples; otherwise compares the z-score of the
filtered value of the sample against the mean and standard deviation of the
filtered-or-raw values of the last statistics_window buffered samples,
returning false when that standard deviation is zero.  The source computes
z = abs(filtered - mean)/std and tests z > outlier_threshold with
std = sqrt(variance); this is equivalent to the square-free test below
(outlier_threshold < 0 makes z > threshold vacuously true since z ≥ 0). -/
def isOutlier (cfg : ProcessingConfig) (calibration_mode : Bool)
    (filtered : ℚ) (buffer : List DataPoint) : Bool :=
  if calibration_mode then false
  else if buffer.length < 10 then false
  else
    let recent := getLatest (cfg.statistics_window : ℤ) buffer
    let values := recent.map pyFilteredOrRaw
    let m := npMean values
    let v := npVar values
    if v = 0 then false
    else decide (cfg.outlier_threshold < 0 ∨
      (filtered - m) ^ 2 > cfg.outlier_threshold ^ 2 * v)

/-- Modelled from the words of the spec, for comparison with isOutlier: flags the
sample exactly when the z-score of its filtered value against the mean and
standard deviation of the last 10 effective values of the history exceeds the
threshold (square-free form), with the same history-length and
calibration-mode gates. -/
def specOutlier (threshold : ℚ) (calibration_mode : Bool)
    (filtered : ℚ) (buffer : List DataPoint) : Bool :=
  if calibration_mode then false
  else if buffer.length < 10 then false
  else
    let values := (lastN 10 buffer).map dpValue
    decide (threshold < 0 ∨
      (filtered - npMean values) ^ 2 > threshold ^ 2 * npVar values)

/-- StatisticsSnapshot from core/data_processor.py.  The dataclass defaults
min_value to +inf and max_value to -inf, but its __post_init__ immediately
normalizes both to 0 whenever count = 0, and every other construction site
passes explicit finite values, so the infinite sentinels never survive; the
embedding therefore uses the normalized defaults.  The std field holds
np.std, the square root of the population variance, hence lives in ℝ. -/
structure StatisticsSnapshot where
  count : ℕ := 0
  mean : ℚ := 0
  std : ℝ := 0
  min_value : ℚ := 0
  max_value : ℚ := 0
  median : ℚ := 0
  percentile_25 : ℚ := 0
  percentile_75 : ℚ := 0
  trend : String := "stable"

/-- The snapshot built by the StatisticsSnapshot() default constructor
(count = 0, min and max normalized to 0 by __post_init__). -/
def initialStatistics : StatisticsSnapshot := {}

/-- Trend classification appended by DataProcessor._update_statistics when at
least 10 values are present: compares the means of the first and second half
of the window with a ±5 percent relative threshold. -/
def computeTrend (values : List ℚ) : String :=
  if 10 ≤ values.length then
    let first_half := values.take (values.length / 2)
    let second_half := values.drop (values.length / 2)
    let mean_first := npMean first_half
    let mean_second := npMean second_half
    let diff_ratio := if mean_first ≠ 0 then (mean_second - mean_first) / mean_first else 0
    if diff_ratio > 5 / 100 then "increasing"
    else if diff_ratio < -(5 / 100) then "decreasing"
    else "stable"
  else "stable"

/-- DataProcessor._update_statistics: takes the most recent statistics_window
samples, returns early (keeping the previous snapshot) when that window is
empty, and otherwise recomputes every snapshot field from the effective
values of the samples (calibrated, else filtered, else raw). -/
noncomputable def updateStatistics (cfg : ProcessingConfig)
    (buffer : List DataPoint) (prev : StatisticsSnapshot) : StatisticsSnapshot :=
  let data := getLatest (cfg.statistics_window : ℤ) buffer
  match data with
  | [] => prev
  | _ =>
    let values := data.map dpValue
    { count := values.length
      mean := npMean values
      std := Real.sqrt (npVar values)
      min_value := listMin values
      max_value := listMax values
      median := npMedian values
      percentile_25 := npPercentile 25 values
      percentile_75 := npPercentile 75 values
      trend := computeTrend values }

/-- DataProcessor._calculate_quality_score: starts at 1.0, halved when the
value leaves the sanity range [0, 10000], multiplied by 0.7 when the value
deviates from the mean of the last 3 raw values by more than 3 standard
deviations of those values (square-free form of abs(v - m) > 3*np.std),
clamped to [0, 1]. -/
def calcQualityScore (buffer : List DataPoint) (value : ℚ) : ℚ :=
  let quality1 : ℚ := if value < 0 ∨ value > 10000 then 1 * (1 / 2) else 1
  let recent_data := getLatest 5 buffer
  let quality2 : ℚ :=
    if 3 ≤ recent_data.length then
      let recent_values := (lastN 3 recent_data).map DataPoint.raw_value
      if (value - npMean recent_values) ^ 2 > 9 * npVar recent_values then
        quality1 * (7 / 10)
      else quality1
    else quality1
  max 0 (min 1 quality2)

/-- Qt signals emitted by DataProcessor, modelled as explicit outputs. -/
inductive PSignal
  | data_processed
  | outlier_detected
  | processing_error
  | statistics_updated
deriving DecidableEq

/-- CalibrationMethod enumeration from core/calibration.py. -/
inductive CalibrationMethod
  | LINEAR
  | POLYNOMIAL_2
  | POLYNOMIAL_3
  | CUBIC_SPLINE
deriving DecidableEq

/-- The string value of each CalibrationMethod member. -/
def CalibrationMethod.value : CalibrationMethod → String
  | .LINEAR => "linear"
  | .POLYNOMIAL_2 => "polynomial_2"
  | .POLYNOMIAL_3 => "polynomial_3"
  | .CUBIC_SPLINE => "cubic_spline"

/-- The CalibrationMethod(str) enum constructor: returns the member with the
given value, or none (a raised ValueError) for unknown strings. -/
def calibrationMethodOfValue (s : String) : Option CalibrationMethod :=
  if s = "linear" then some .LINEAR
  else if s = "polynomial_2" then some .POLYNOMIAL_2
  else if s = "polynomial_3" then some .POLYNOMIAL_3
  else if s = "cubic_spline" then some .CUBIC_SPLINE
  else none

/-- CalibrationState enumeration from core/calibration.py. -/
inductive CalibrationState
  | IDLE
  | COLLECTING
  | PROCESSING
  | COMPLETED
  | ERROR
deriving DecidableEq

/-- CalibrationPoint from core/calibration.py. -/
structure CalibrationPoint where
  reference_weight : ℚ
  sensor_readings : List ℚ
  collection_time : ℚ
  quality_score : ℚ := 1
deriving DecidableEq

/-- CalibrationPoint.average_reading: mean of the sensor readings, 0 when the
reading list is empty. -/
def CalibrationPoint.average_reading (p : CalibrationPoint) : ℚ :=
  match p.sensor_readings with
  | [] => 0
  | _ => npMean p.sensor_readings

/-- CalibrationResult from core/calibration.py.  The Python coefficients
tuple becomes a list; its length is 2 for linear fits, 3 and 4 for the
polynomial fits. -/
structure CalibrationResult where
  method : CalibrationMethod
  coefficients : List ℚ
  r_squared : ℚ
  rmse : ℚ
  points : List CalibrationPoint
  created_time : ℚ
  validation_passed : Bool := false
deriving DecidableEq

/-- CalibrationResult.apply: evaluates the fitted curve at a sensor value.
The source destructures the coefficient tuple at the arity of the method
(raising on mismatch, which never happens for engine-produced results); the
embedding reads coefficients positionally with a 0 default. -/
def CalibrationResult.apply (r : CalibrationResult) (sensor_value : ℚ) : ℚ :=
  match r.method with
  | .LINEAR => r.coefficients.getD 0 0 * sensor_value + r.coefficients.getD 1 0
  | .POLYNOMIAL_2 =>
      r.coefficients.getD 0 0 * sensor_value ^ 2 +
      r.coefficients.getD 1 0 * sensor_value + r.coefficients.getD 2 0
  | .POLYNOMIAL_3 =>
      r.coefficients.getD 0 0 * sensor_value ^ 3 +
      r.coefficients.getD 1 0 * sensor_value ^ 2 +
      r.coefficients.getD 2 0 * sensor_value + r.coefficients.getD 3 0
  | .CUBIC_SPLINE =>
      if 2 ≤ r.coefficients.length then
        r.coefficients.getD 0 0 * sensor_value + r.coefficients.getD 1 0
      else sensor_value

/-- Mutable state of DataProcessor touched by process_raw_data, with the
active digital filter abstracted: filter_state is the internal state of
whichever filter is configured (or Unit when none is). -/
structure ProcState (σ : Type) where
  buffer : List DataPoint := []
  calibration_result : Option CalibrationResult := none
  calibration_mode : Bool := false
  filter_state : σ

/-- DataProcessor.process_raw_data.  The float(raw_value_str) parse is
modelled by the parsed argument (none = ValueError).  The configured filter
is the filt argument: a stateful single-sample function, or none when no
filter is configured; it is invoked only when the quality score reaches the
configured threshold, exactly as in the source.  time.time() is the now
argument.  Returns the new state, the Optional DataPoint return value, and
the emitted signals in order. -/
def processRawData (cfg : ProcessingConfig) (filt : Option (σ → ℚ → ℚ × σ))
    (now : ℚ) (st : ProcState σ) (parsed : Option ℚ) :
    ProcState σ × Option DataPoint × List PSignal :=
  match parsed with
  | none => (st, none, [.processing_error])
  | some raw_value =>
    let quality := calcQualityScore st.buffer raw_value
    let fr : ℚ × σ :=
      match filt with
      | some f =>
        if quality ≥ cfg.quality_threshold then f st.filter_state raw_value
        else (raw_value, st.filter_state)
      | none => (raw_value, st.filter_state)
    let filtered := fr.1
    let calibrated :=
      match st.calibration_result with
      | some c => c.apply filtered
      | none => filtered
    let dp : DataPoint :=
      { timestamp := now
        raw_value := raw_value
        filtered_value := some filtered
        calibrated_value := some calibrated
        quality_score := quality }
    let outlier := isOutlier cfg st.calibration_mode filtered st.buffer
    ({ st with buffer := bufferAppend cfg.max_buffer_size st.buffer dp
               filter_state := fr.2 },
     some dp,
     (if outlier then [.outlier_detected] else []) ++ [.data_processed])

/-- CollectionConfig from core/calibration.py with its field defaults. -/
structure CollectionConfig where
  collection_duration : ℚ := 10
  min_samples : ℕ := 150
  max_cv_percentage : ℚ := 5
  outlier_threshold : ℚ := 3
  auto_advance : Bool := true
  stabilization_time : ℚ := 3
deriving DecidableEq

/-- The default CollectionConfig (all dataclass defaults). -/
def defaultCollectionConfig : CollectionConfig := {}

/-- CalibrationEngine._validate_calibration: passes exactly when
r_squared ≥ 0.95, rmse ≤ 0.1, and for the linear method the slope is
positive.  The source destructures the linear coefficient tuple as
(slope, intercept); a tuple of any other arity would raise there, which the
surrounding try block of calculate_calibration turns into a failure, hence
the none outcome. -/
def validateCalibration (result : CalibrationResult) : Option Bool :=
  if result.r_squared < 95 / 100 then some false
  else if result.rmse > 1 / 10 then some false
  else
    match result.method with
    | .LINEAR =>
      match result.coefficients with
      | [slope, _] => if slope ≤ 0 then some false else some true
      | _ => none
    | _ => some true

/-- Mutable state of CalibrationEngine touched by calculate_calibration:
the state-machine state and the collected point list (the transient
per-point collection fields are driven by other methods and are left
unchanged by the operations modelled here). -/
structure EngineState where
  state : CalibrationState := .IDLE
  calibration_points : List CalibrationPoint := []
  current_readings : List ℚ := []
  current_step : ℕ := 0
deriving DecidableEq

/-- CalibrationEngine.calculate_calibration.  The scipy regressions
(_linear_regression via stats.linregress, _polynomial_regression via
np.polyfit) are external library code, modelled by the fit argument, which
receives the method and the x/y arrays extracted from the collected points
(average readings and reference weights) and returns the coefficient list,
r_squared and rmse, or none for a raised numerical error.  time.time() is
the now argument.  Fewer than 2 points returns none before any state
change; a regression or validation-unpacking failure sets the ERROR state;
otherwise the result is built, validated (the flag is surfaced on the
result, never withheld), the state becomes COMPLETED and the result is
returned. -/
def calculateCalibration
    (fit : CalibrationMethod → List ℚ → List ℚ → Option (List ℚ × ℚ × ℚ))
    (now : ℚ) (method : CalibrationMethod) (es : EngineState) :
    EngineState × Option CalibrationResult :=
  if es.calibration_points.length < 2 then (es, none)
  else
    let x_data := es.calibration_points.map CalibrationPoint.average_reading
    let y_data := es.calibration_points.map CalibrationPoint.reference_weight
    match fit method x_data y_data with
    | none => ({ es with state := .ERROR }, none)
    | some (coeffs, r_squared, rmse) =>
      let result : CalibrationResult :=
        { method := method
          coefficients := coeffs
          r_squared := r_squared
          rmse := rmse
          points := es.calibration_points
          created_time := now
          validation_passed := false }
      match validateCalibration result with
      | none => ({ es with state := .ERROR }, none)
      | some ok =>
        ({ es with state := .COMPLETED },
         some { result with validation_passed := ok })

/-- Outcome of one tick of the steady-state collection sub-phase. -/
inductive CollectionAction
  | complete
  | wait
deriving DecidableEq

/-- Steady-state branch of CalibrationEngine._check_collection_progress
(the stabilization sub-phase returns before this code runs): completes the
point when the collection duration has elapsed with at least min_samples
collected, and on the 2x-duration hard timeout completes only when the
sample count is strictly greater than 10; in every other case the tick just
waits. -/
def checkCollectionProgress (cfg : CollectionConfig) (elapsed : ℚ)
    (sample_count : ℕ) : CollectionAction :=
  if elapsed ≥ cfg.collection_duration ∧ sample_count ≥ cfg.min_samples then
    if sample_count > 0 then .complete else .wait
  else if elapsed ≥ cfg.collection_duration * 2 then
    if sample_count > 10 then .complete else .wait
  else .wait

/-- One calibration point as written to the JSON save file.  quality_score
is an Option because files written before the field existed lack it. -/
structure SavedPoint where
  reference_weight : ℚ
  sensor_readings : List ℚ
  collection_time : ℚ
  quality_score : Option ℚ := none
deriving DecidableEq

/-- The JSON document written by CalibrationEngine.save_calibration.
validation_passed is an Option because load_calibration reads it with a
false default for older files. -/
structure SavedCalibration where
  method : String
  coefficients : List ℚ
  r_squared : ℚ
  rmse : ℚ
  created_time : ℚ
  validation_passed : Option Bool := none
  points : List SavedPoint
deriving DecidableEq

/-- The point dictionary written by save_calibration for one point. -/
def savePoint (p : CalibrationPoint) : SavedPoint :=
  { reference_weight := p.reference_weight
    sensor_readings := p.sensor_readings
    collection_time := p.collection_time
    quality_score := some p.quality_score }

/-- CalibrationEngine.save_calibration: the JSON document written for a
result (file I/O, which can only fail wholesale, is outside the model). -/
def saveCalibration (r : CalibrationResult) : SavedCalibration :=
  { method := r.method.value
    coefficients := r.coefficients
    r_squared := r.r_squared
    rmse := r.rmse
    created_time := r.created_time
    validation_passed := some r.validation_passed
    points := r.points.map savePoint }

/-- Point reconstruction in CalibrationEngine.load_calibration:
point_data.get with key quality_score and default 1.0 fills a missing quality. -/
def loadPoint (pd : SavedPoint) : CalibrationPoint :=
  { reference_weight := pd.reference_weight
    sensor_readings := pd.sensor_readings
    collection_time := pd.collection_time
    quality_score := pd.quality_score.getD 1 }

/-- CalibrationEngine.load_calibration on a parsed JSON document: an unknown
method string raises inside the try block and yields none; otherwise the
result is rebuilt, defaulting a missing validation_passed to false. -/
def loadCalibration (d : SavedCalibration) : Option CalibrationResult :=
  match calibrationMethodOfValue d.method with
  | none => none
  | some m =>
    some { method := m
           coefficients := d.coefficients
           r_squared := d.r_squared
           rmse := d.rmse
           points := d.points.map loadPoint
           created_time := d.created_time
           validation_passed := d.validation_passed.getD false }

/-- Invariant of the history buffer maintained by the pipeline: every stored
sample carries a filtered value, and its effective value is exactly its
calibrated value. -/
def bufferInvariant (buffer : List DataPoint) : Prop :=
  ∀ dp ∈ buffer, dp.filtered_value.isSome = true ∧ dp.calibrated_value = some (dpValue dp)

/-- An 11-sample history whose last 10 filtered values differ in mean and
spread from the full window; every sample has equal raw, filtered and
calibrated values, so the effective value and the filtered-or-raw value
coincide. -/
def c1History : List DataPoint :=
  ([100, 0, 10, 0, 10, 0, 10, 0, 10, 0, 10] : List ℚ).map
    (fun v => { timestamp := 0, raw_value := v, filtered_value := some v,
                calibrated_value := some v })

/-- An engine state holding two collected calibration points. -/
def c2Engine : EngineState :=
  { state := CalibrationState.IDLE
    calibration_points :=
      [{ reference_weight := 0, sensor_readings := [1], collection_time := 0 },
       { reference_weight := 10, sensor_readings := [2], collection_time := 0 }]
    current_readings := []
    current_step := 0 }

/-- A concrete regression outcome: slope 10, intercept -10, perfect fit. -/
def c2Fit : CalibrationMethod → List ℚ → List ℚ → Option (List ℚ × ℚ × ℚ) :=
  fun _ _ _ => some ([10, -10], 1, 0)

/-- A concrete calibration result with one collected point. -/
def c3Result : CalibrationResult :=
  { method := CalibrationMethod.LINEAR
    coefficients := [10, -10]
    r_squared := 1
    rmse := 0
    points := [{ reference_weight := 0, sensor_readings := [1], collection_time := 0,
                 quality_score := 1 / 2 }]
    created_time := 5
    validation_passed := true }

/-- A saved point from an older file: its quality_score field is absent. -/
def c3OldPoint : SavedPoint :=
  { reference_weight := 3, sensor_readings := [4], collection_time := 0 }

/-- A single processed sample with effective value 7. -/
def c5Point : DataPoint :=
  { timestamp := 0, raw_value := 7, filtered_value := some 7, calibrated_value := some 7 }

/-- The statistics snapshot computed over a one-sample buffer: this is the
snapshot consumers see just before the buffer is cleared. -/
noncomputable def c5Prev : StatisticsSnapshot :=
  updateStatistics defaultProcessingConfig [c5Point] initialStatistics

/-- An engine state holding exactly one collected calibration point. -/
def c7Engine : EngineState :=
  { state := CalibrationState.IDLE
    calibration_points :=
      [{ reference_weight := 0, sensor_readings := [1, 2], collection_time := 0 }]
    current_readings := []
    current_step := 0 }

/-- Three distinct samples to append into a capacity-2 buffer. -/
def c8Samples : List DataPoint :=
  [{ timestamp := 0, raw_value := 1 }, { timestamp := 1, raw_value := 2 },
   { timestamp := 2, raw_value := 3 }]

/-- A fresh processor state: empty buffer, no calibration, no filter state. -/
def c9Init : ProcState Unit := { filter_state := () }

/-- A single stored sample. -/
def c10dp : DataPoint := { timestamp := 0, raw_value := 1 }

/-- A second stored sample. -/
def c10dp2 : DataPoint := { timestamp := 0, raw_value := 2 }

/-- Justification of the square-free translation of z-score tests: for a
positive variance v, the test abs(d)/sqrt(v) > t used by the source is
equivalent to the rational test t < 0 or d^2 > t^2 * v. -/
theorem abs_div_sqrt_gt_iff (d t v : ℝ) (hv : 0 < v) :
    t < |d| / Real.sqrt v ↔ (t < 0 ∨ t ^ 2 * v < d ^ 2) := by
  have hs : 0 < Real.sqrt v := Real.sqrt_pos.mpr hv
  rcases lt_or_le t 0 with ht | ht
  · constructor
    · intro _
      exact Or.inl ht
    · intro _
      exact lt_of_lt_of_le ht (div_nonneg (abs_nonneg d) hs.le)
  · rw [lt_div_iff₀ hs]
    constructor
    · intro h
      refine Or.inr ?_
      have h2 : (t * Real.sqrt v) ^ 2 < |d| ^ 2 :=
        pow_lt_pow_left₀ h (mul_nonneg ht hs.le) (by norm_num)
      calc t ^ 2 * v = (t * Real.sqrt v) ^ 2 := by
            rw [mul_pow, Real.sq_sqrt hv.le]
        _ < |d| ^ 2 := h2
        _ = d ^ 2 := sq_abs d
    · intro h
      rcases h with h | h
      · exact absurd h (not_lt.mpr ht)
      · have h2 : (t * Real.sqrt v) ^ 2 < |d| ^ 2 := by
          rw [mul_pow, Real.sq_sqrt hv.le, sq_abs]
          exact h
        have hts : 0 ≤ t * Real.sqrt v := mul_nonneg ht hs.le
        exact lt_of_pow_lt_pow_left₀ 2 (abs_nonneg d) h2

/-- Helper: get_latest on an empty buffer returns the empty list for every
count. -/
theorem getLatest_nil (c : ℤ) : getLatest c ([] : List α) = [] := by
  simp [getLatest, pySliceFrom]

/-- Helper: keeping the last C elements before appending a suffix gives the
same result as keeping the last C elements of the whole concatenation. -/
theorem drop_last_append (C : ℕ) (a b : List α) :
    (a.drop (a.length - C) ++ b).drop ((a.drop (a.length - C) ++ b).length - C) =
      (a ++ b).drop ((a ++ b).length - C) := by
  simp only [List.drop_append_eq_append_drop, List.drop_drop, List.length_append,
    List.length_drop]
  congr 1 <;> congr 1 <;> omega

/-- Helper: folding bounded appends over xs starting from the last C elements
of a yields the last C elements of a ++ xs. -/
theorem appendAll_drop (C : ℕ) (a xs : List α) :
    appendAll C (a.drop (a.length - C)) xs = (a ++ xs).drop ((a ++ xs).length - C) := by
  induction xs generalizing a with
  | nil => simp [appendAll]
  | cons x xs ih =>
    simp only [appendAll, List.foldl_cons]
    have hb : bufferAppend C (a.drop (a.length - C)) x =
        (a ++ [x]).drop ((a ++ [x]).length - C) := drop_last_append C a [x]
    rw [hb]
    have ih2 := ih (a ++ [x])
    simp only [appendAll] at ih2
    rw [ih2]
    simp

/-- Helper: appending xs into an initially empty bounded buffer retains
exactly the last C elements of xs. -/
theorem appendAll_nil_drop (C : ℕ) (xs : List α) :
    appendAll C [] xs = xs.drop (xs.length - C) := by
  simpa using appendAll_drop C ([] : List α) xs

/-- Helper: the enum round-trip CalibrationMethod(m.value) recovers m. -/
theorem methodOfValue_value (m : CalibrationMethod) :
    calibrationMethodOfValue m.value = some m := by
  cases m <;> rfl

/-- Helper: loading a freshly saved point reproduces it exactly. -/
theorem loadPoint_savePoint (p : CalibrationPoint) : loadPoint (savePoint p) = p := by
  cases p
  rfl

/-- Helper: _validate_calibration succeeds on any result whose linear
coefficient tuple has arity 2, and passes exactly under the documented
thresholds. -/
theorem validateCalibration_spec (r : CalibrationResult)
    (harity : r.method = CalibrationMethod.LINEAR → ∃ s i, r.coefficients = [s, i]) :
    ∃ b, validateCalibration r = some b ∧
      (b = true ↔ (95 / 100 ≤ r.r_squared ∧ r.rmse ≤ 1 / 10 ∧
        (r.method = CalibrationMethod.LINEAR → 0 < r.coefficients.headD 0))) := by
  obtain ⟨m, c, rsq, rms, pts, t, vp⟩ := r
  dsimp only at harity ⊢
  unfold validateCalibration
  dsimp only
  by_cases hr : rsq < 95 / 100
  · refine ⟨false, by rw [if_pos hr], ?_⟩
    refine iff_of_false (by simp) ?_
    rintro ⟨h1, -, -⟩
    linarith
  · rw [if_neg hr]
    by_cases he : rms > 1 / 10
    · refine ⟨false, by rw [if_pos he], ?_⟩
      refine iff_of_false (by simp) ?_
      rintro ⟨-, h1, -⟩
      linarith
    · rw [if_neg he]
      push_neg at hr he
      cases m with
      | LINEAR =>
        obtain ⟨s, i, hc⟩ := harity rfl
        subst hc
        dsimp only
        by_cases hs : s ≤ 0
        · refine ⟨false, by rw [if_pos hs], ?_⟩
          refine iff_of_false (by simp) ?_
          rintro ⟨-, -, h3⟩
          have h4 := h3 rfl
          simp only [List.headD_cons] at h4
          linarith
        · refine ⟨true, by rw [if_neg hs], ?_⟩
          refine iff_of_true rfl ⟨hr, he, fun _ => ?_⟩
          simp only [List.headD_cons]
          linarith
      | POLYNOMIAL_2 => exact ⟨true, rfl, iff_of_true rfl ⟨hr, he, fun h => nomatch h⟩⟩
      | POLYNOMIAL_3 => exact ⟨true, rfl, iff_of_true rfl ⟨hr, he, fun h => nomatch h⟩⟩
      | CUBIC_SPLINE => exact ⟨true, rfl, iff_of_true rfl ⟨hr, he, fun h => nomatch h⟩⟩

/-- Claim C1, counterexample: on an 11-sample history with default
configuration and calibration mode off, the z-score of the new filtered
value over the last 10 effective values exceeds the default threshold 3
(the claim would flag an outlier), yet the pipeline outlier check, which
uses the entire statistics_window of up to 1000 samples, returns false. -/
theorem c1_counterexample :
    specOutlier 3 false (41 / 2) c1History = true ∧
    isOutlier defaultProcessingConfig false (41 / 2) c1History = false ∧
    10 ≤ c1History.length := by
  refine ⟨?_, ?_, by norm_num [c1History]⟩
  · norm_num [specOutlier, c1History, lastN, dpValue, npMean, npVar]
  · norm_num [isOutlier, defaultProcessingConfig, c1History, getLatest, pySliceFrom,
      pyFilteredOrRaw, npMean, npVar]

/-- Claim C1, amended: with the default configuration, the outlier check
returns true exactly when calibration mode is off, the history holds at
least 10 samples, and the squared deviation of the filtered value from the
mean of the filtered-or-raw values of the last 1000 (statistics_window)
history samples exceeds 9 (threshold squared) times their variance, that
variance being nonzero; in particular it is false whenever calibration mode
is on or the history holds fewer than 10 samples. -/
theorem c1_amended (hist : List DataPoint) (x : ℚ) (mode : Bool) :
    isOutlier defaultProcessingConfig mode x hist = true ↔
      (mode = false ∧ 10 ≤ hist.length ∧
        npVar ((getLatest 1000 hist).map pyFilteredOrRaw) ≠ 0 ∧
        9 * npVar ((getLatest 1000 hist).map pyFilteredOrRaw) <
          (x - npMean ((getLatest 1000 hist).map pyFilteredOrRaw)) ^ 2) := by
  cases mode with
  | true => simp [isOutlier]
  | false =>
    unfold isOutlier
    simp only [Bool.false_eq_true, if_false, defaultProcessingConfig, Nat.cast_ofNat]
    split_ifs with h1 h2
    · simp
      omega
    · simp [h2]
    · simp only [decide_eq_true_eq]
      constructor
      · rintro (h | h)
        · norm_num at h
        · norm_num at h
          exact ⟨trivial, by omega, h2, h⟩
      · rintro ⟨-, hlen, hv, h⟩
        right
        norm_num
        linarith

/-- Claim C2: whenever calculate_calibration runs on at least two points and
the regression succeeds (with arity-2 coefficients for the linear method,
as the real regressions guarantee), a result is returned, never withheld,
and its validation_passed flag is true exactly when r_squared is at least
0.95, rmse is at most 0.1, and, for the linear method, the slope is
positive. -/
theorem c2_validation
    (fit : CalibrationMethod → List ℚ → List ℚ → Option (List ℚ × ℚ × ℚ))
    (now : ℚ) (method : CalibrationMethod) (es : EngineState)
    (coeffs : List ℚ) (r2 rm : ℚ)
    (h2 : 2 ≤ es.calibration_points.length)
    (hfit : fit method (es.calibration_points.map CalibrationPoint.average_reading)
        (es.calibration_points.map CalibrationPoint.reference_weight) =
        some (coeffs, r2, rm))
    (harity : method = CalibrationMethod.LINEAR → ∃ s i, coeffs = [s, i]) :
    ∃ (es2 : EngineState) (result : CalibrationResult),
      calculateCalibration fit now method es = (es2, some result) ∧
      result.method = method ∧ result.coefficients = coeffs ∧
      result.r_squared = r2 ∧ result.rmse = rm ∧
      (result.validation_passed = true ↔
        (95 / 100 ≤ r2 ∧ rm ≤ 1 / 10 ∧
          (method = CalibrationMethod.LINEAR → 0 < coeffs.headD 0))) := by
  unfold calculateCalibration
  rw [if_neg (by omega)]
  dsimp only
  rw [hfit]
  dsimp only
  obtain ⟨b, hb, hiff⟩ := validateCalibration_spec
    { method := method, coefficients := coeffs, r_squared := r2, rmse := rm,
      points := es.calibration_points, created_time := now,
      validation_passed := false } harity
  rw [hb]
  exact ⟨_, _, rfl, rfl, rfl, rfl, rfl, hiff⟩

/-- Claim C2, witness: a perfect linear fit on two points is returned with
its validation flag characterized by the thresholds. -/
theorem c2_witness :
    ∃ (es2 : EngineState) (result : CalibrationResult),
      calculateCalibration c2Fit 0 CalibrationMethod.LINEAR c2Engine =
        (es2, some result) ∧
      result.method = CalibrationMethod.LINEAR ∧
      result.coefficients = [10, -10] ∧
      result.r_squared = 1 ∧ result.rmse = 0 ∧
      (result.validation_passed = true ↔
        (95 / 100 ≤ (1 : ℚ) ∧ (0 : ℚ) ≤ 1 / 10 ∧
          (CalibrationMethod.LINEAR = CalibrationMethod.LINEAR →
            (0 : ℚ) < ([10, -10] : List ℚ).headD 0))) :=
  c2_validation c2Fit 0 CalibrationMethod.LINEAR c2Engine [10, -10] 1 0
    (by simp [c2Engine]) (by simp [c2Fit]) (fun _ => ⟨10, -10, rfl⟩)

/-- Claim C3: saving a calibration result and loading the saved document
reproduces an equal result (same method, coefficients, r_squared, rmse,
points and validation flag), and a stored point lacking the quality_score
field is reconstructed with quality_score defaulted to 1. -/
theorem c3_roundtrip (r : CalibrationResult) (pd : SavedPoint)
    (hq : pd.quality_score = none) :
    loadCalibration (saveCalibration r) = some r ∧ (loadPoint pd).quality_score = 1 := by
  constructor
  · cases r with
    | mk m c rsq rms pts t vp =>
      simp [loadCalibration, saveCalibration, methodOfValue_value, List.map_map,
        Function.comp_def, loadPoint_savePoint]
  · simp [loadPoint, hq]

/-- Claim C3, witness: the round-trip and the quality default evaluated on a
concrete result and a concrete legacy point. -/
theorem c3_witness :
    loadCalibration (saveCalibration c3Result) = some c3Result ∧
    (loadPoint c3OldPoint).quality_score = 1 :=
  c3_roundtrip c3Result c3OldPoint rfl

/-- Claim C4, counterexample: with the default collection configuration,
at elapsed time 20 (exactly twice the 10-second collection duration, with
the normal completion condition unmet since 10 < 150 samples) and exactly
10 steady-state samples, the tick does not complete the point, although the
claim requires completion at 10 or more samples. -/
theorem c4_counterexample :
    checkCollectionProgress defaultCollectionConfig 20 10 = CollectionAction.wait ∧
    (20 : ℚ) ≥ defaultCollectionConfig.collection_duration * 2 ∧
    ¬((20 : ℚ) ≥ defaultCollectionConfig.collection_duration ∧
      10 ≥ defaultCollectionConfig.min_samples) ∧
    (10 : ℕ) ≥ 10 := by
  refine ⟨?_, by norm_num [defaultCollectionConfig],
    by norm_num [defaultCollectionConfig], le_refl 10⟩
  norm_num [checkCollectionProgress, defaultCollectionConfig]

/-- Claim C4, amended: once the elapsed time reaches the 2x hard timeout
without the normal completion condition holding, the tick completes the
point exactly when the steady-state sample count is strictly greater than
10 (at least 11), and otherwise keeps waiting. -/
theorem c4_amended (cfg : CollectionConfig) (elapsed : ℚ) (n : ℕ)
    (ht : elapsed ≥ cfg.collection_duration * 2)
    (hnot : ¬(elapsed ≥ cfg.collection_duration ∧ n ≥ cfg.min_samples)) :
    (checkCollectionProgress cfg elapsed n = CollectionAction.complete ↔ 10 < n) := by
  unfold checkCollectionProgress
  rw [if_neg hnot, if_pos ht]
  split_ifs with h
  · simp [h]
  · simp [h]

/-- Claim C4, witness: at elapsed time 20 with 11 samples the hard-timeout
branch completes the point. -/
theorem c4_witness :
    (checkCollectionProgress defaultCollectionConfig 20 11 = CollectionAction.complete ↔
      10 < 11) :=
  c4_amended defaultCollectionConfig 20 11 (by norm_num [defaultCollectionConfig])
    (by norm_num [defaultCollectionConfig])

/-- Claim C5, counterexample: after a recomputation over a one-sample buffer,
recomputing over an empty buffer leaves the previous snapshot in place:
consumers see count 1 and min = max = 7, stale values from the earlier
non-empty window, not the zeroed snapshot the claim requires. -/
theorem c5_counterexample :
    (updateStatistics defaultProcessingConfig [] c5Prev).count = 1 ∧
    (updateStatistics defaultProcessingConfig [] c5Prev).min_value = 7 ∧
    (updateStatistics defaultProcessingConfig [] c5Prev).max_value = 7 := by
  refine ⟨rfl, rfl, rfl⟩

/-- Claim C5, amended: a recomputation over an empty buffer returns the
previous snapshot unchanged (the update returns early, so consumers keep
seeing the last snapshot, which may be stale); the zeros normalization
(count = 0 forcing min = max = 0 in place of the infinite sentinels) applies
to the initial default-constructed snapshot. -/
theorem c5_amended :
    (∀ (cfg : ProcessingConfig) (prev : StatisticsSnapshot),
      updateStatistics cfg [] prev = prev) ∧
    initialStatistics.count = 0 ∧ initialStatistics.min_value = 0 ∧
    initialStatistics.max_value = 0 := by
  refine ⟨?_, rfl, rfl, rfl⟩
  intro cfg prev
  unfold updateStatistics
  rw [getLatest_nil]

/-- Claim C6: an input that fails to parse makes process_raw_data return a
null result with a processing-error signal, leaving the whole processor
state (including the history buffer and filter state) unchanged, so every
subsequent input is processed exactly as if the failure had never
happened. -/
theorem c6_parse_failure (σ : Type) (cfg : ProcessingConfig)
    (filt : Option (σ → ℚ → ℚ × σ)) (now : ℚ) (st : ProcState σ) :
    processRawData cfg filt now st none = (st, none, [PSignal.processing_error]) ∧
    ∀ (now2 : ℚ) (input2 : Option ℚ),
      processRawData cfg filt now2 (processRawData cfg filt now st none).1 input2 =
        processRawData cfg filt now2 st input2 := by
  exact ⟨rfl, fun now2 input2 => rfl⟩

/-- Claim C7: calculate_calibration with fewer than two collected points
returns a null result and leaves the engine state, including the collected
point list, exactly as it was. -/
theorem c7_insufficient_points
    (fit : CalibrationMethod → List ℚ → List ℚ → Option (List ℚ × ℚ × ℚ))
    (now : ℚ) (method : CalibrationMethod) (es : EngineState)
    (h : es.calibration_points.length < 2) :
    calculateCalibration fit now method es = (es, none) := by
  unfold calculateCalibration
  rw [if_pos h]

/-- Claim C7, witness: with exactly one collected point the call returns
none and the engine is unchanged. -/
theorem c7_witness :
    calculateCalibration (fun _ _ _ => some ([1, 0], 1, 0)) 0 CalibrationMethod.LINEAR
      c7Engine = (c7Engine, none) :=
  c7_insufficient_points _ 0 _ c7Engine (by simp [c7Engine])

/-- Claim C8: appending any over-capacity sequence into an empty bounded
buffer retains exactly the most recent C samples in arrival order, the
final length is exactly C, and the length never exceeds C at any
intermediate point of the append sequence. -/
theorem c8_bounded_history (C : ℕ) (xs : List DataPoint) (h : C < xs.length) :
    appendAll C [] xs = xs.drop (xs.length - C) ∧
    (appendAll C [] xs).length = C ∧
    ∀ n, (appendAll C [] (xs.take n)).length ≤ C := by
  refine ⟨appendAll_nil_drop C xs, ?_, ?_⟩
  · rw [appendAll_nil_drop, List.length_drop]
    omega
  · intro n
    rw [appendAll_nil_drop, List.length_drop]
    omega

/-- Claim C8, witness: three samples appended into a capacity-2 buffer keep
the last two in order, with every prefix length at most 2. -/
theorem c8_witness :
    appendAll 2 [] c8Samples = c8Samples.drop (c8Samples.length - 2) ∧
    (appendAll 2 [] c8Samples).length = 2 ∧
    ∀ n, (appendAll 2 [] (c8Samples.take n)).length ≤ 2 :=
  c8_bounded_history 2 c8Samples (by simp [c8Samples])

/-- Claim C9: every DataPoint produced by a successful process_raw_data call
has filtered_value and calibrated_value set; with no calibration installed
calibrated_value equals filtered_value; the effective value of the produced
sample is its calibrated value; and processing preserves the buffer
invariant that every stored sample has its effective value equal to its
calibrated value. -/
theorem c9_effective_is_calibrated (σ : Type) (cfg : ProcessingConfig)
    (filt : Option (σ → ℚ → ℚ × σ)) (now : ℚ) (st : ProcState σ) (v : ℚ) :
    (∃ (st2 : ProcState σ) (dp : DataPoint) (sigs : List PSignal),
      processRawData cfg filt now st (some v) = (st2, some dp, sigs) ∧
      dp.filtered_value.isSome = true ∧
      dp.calibrated_value = some (dpValue dp) ∧
      (st.calibration_result = none → dp.calibrated_value = dp.filtered_value)) ∧
    (∀ (input : Option ℚ),
      bufferInvariant st.buffer →
      bufferInvariant (processRawData cfg filt now st input).1.buffer) := by
  constructor
  · refine ⟨_, _, _, rfl, rfl, rfl, ?_⟩
    intro h
    simp [h]
  · intro input hinv
    cases input with
    | none => exact hinv
    | some w =>
      intro dp hdp
      have hdp2 : dp ∈ st.buffer ++
          [{ timestamp := now, raw_value := w,
             filtered_value := some (match filt with
               | some f =>
                 if calcQualityScore st.buffer w ≥ cfg.quality_threshold then
                   f st.filter_state w
                 else (w, st.filter_state)
               | none => (w, st.filter_state)).1,
             calibrated_value := some (match st.calibration_result with
               | some c => c.apply (match filt with
                 | some f =>
                   if calcQualityScore st.buffer w ≥ cfg.quality_threshold then
                     f st.filter_state w
                   else (w, st.filter_state)
                 | none => (w, st.filter_state)).1
               | none => (match filt with
                 | some f =>
                   if calcQualityScore st.buffer w ≥ cfg.quality_threshold then
                     f st.filter_state w
                   else (w, st.filter_state)
                 | none => (w, st.filter_state)).1),
             quality_score := calcQualityScore st.buffer w }] :=
        List.mem_of_mem_drop hdp
      rcases List.mem_append.mp hdp2 with h | h
      · exact hinv dp h
      · rw [List.mem_singleton] at h
        subst h
        exact ⟨rfl, rfl⟩

/-- Claim C9, witness: processing the value 1 from a fresh state yields a
sample with both values set, and the resulting buffer satisfies the
calibrated-effective-value invariant. -/
theorem c9_witness :
    (∃ (st2 : ProcState Unit) (dp : DataPoint) (sigs : List PSignal),
      processRawData defaultProcessingConfig none 0 c9Init (some 1) =
        (st2, some dp, sigs) ∧
      dp.filtered_value.isSome = true ∧
      dp.calibrated_value = some (dpValue dp) ∧
      (c9Init.calibration_result = none → dp.calibrated_value = dp.filtered_value)) ∧
    bufferInvariant
      (processRawData defaultProcessingConfig none 0 c9Init (some 1)).1.buffer :=
  ⟨(c9_effective_is_calibrated Unit defaultProcessingConfig none 0 c9Init 1).1,
   (c9_effective_is_calibrated Unit defaultProcessingConfig none 0 c9Init 1).2 (some 1)
     (fun dp hdp => absurd hdp (List.not_mem_nil dp))⟩

/-- Claim C10, counterexample: get_latest with the negative count -1 on a
one-element buffer returns the empty list although the buffer is not empty,
refuting the unrestricted reading that an empty result implies an empty
buffer. -/
theorem c10_counterexample :
    getLatest (-1) [c10dp] = ([] : List DataPoint) ∧ ([c10dp] : List DataPoint) ≠ [] := by
  constructor
  · norm_num [getLatest, pySliceFrom]
  · simp

/-- Claim C10, amended: get_latest with count 0 returns the entire buffer;
for a nonnegative count the result is empty exactly when the buffer is
empty; and for 0 < n at most the buffer length the result is exactly the n
most recent items in arrival order.  For negative counts the call can
return an empty list on a nonempty buffer. -/
theorem c10_amended (l : List DataPoint) (k : ℕ) :
    getLatest 0 l = l ∧
    (0 < k → k ≤ l.length → getLatest (k : ℤ) l = lastN k l) ∧
    (getLatest (k : ℤ) l = [] ↔ l = []) := by
  refine ⟨?_, ?_, ?_⟩
  · unfold getLatest pySliceFrom
    split_ifs with h h0
    · rfl
    · norm_num
    · omega
  · intro hk hkl
    unfold getLatest pySliceFrom lastN
    split_ifs with h h0
    · have h2 : l.length - k = 0 := by omega
      rw [h2, List.drop_zero]
    · omega
    · congr 1
      omega
  · unfold getLatest pySliceFrom
    split_ifs with h h0
    · exact Iff.rfl
    · have hk : k = 0 := by omega
      subst hk
      norm_num
    · have h1 : 0 < k := by omega
      have h2 : k < l.length := by omega
      constructor
      · intro hd
        have h3 := congrArg List.length hd
        rw [List.length_drop] at h3
        simp at h3
        omega
      · intro hl
        subst hl
        simp at h2

/-- Claim C10, witness: on a two-element buffer, count 1 returns the single
most recent element and the emptiness equivalence holds. -/
theorem c10_witness :
    getLatest ((1 : ℕ) : ℤ) [c10dp, c10dp2] = lastN 1 [c10dp, c10dp2] ∧
    (getLatest ((1 : ℕ) : ℤ) [c10dp, c10dp2] = [] ↔
      ([c10dp, c10dp2] : List DataPoint) = []) :=
  ⟨(c10_amended [c10dp, c10dp2] 1).2.1 (by norm_num) (by simp),
   (c10_amended [c10dp, c10dp2] 1).2.2⟩
